import Mathlib

/-!
Verification development for the QUIC server-side connection dispatcher
(`quiche/quic/core/quic_dispatcher.cc`).

The dispatcher is shallowly embedded: its state is an explicit structure,
its entry points are pure functions from a state (plus the parsed packet
information) to a new state together with a list of observable effects
(session deliveries, time-wait insertions, outbound stateless packets, ...).
External collaborators that are not part of the sources (the buffered packet
store, the framer and packet creator, the TLS CHLO extractor, the connection
ID replacement hash) are modelled from the specification; each such
definition carries a doc comment saying so.
-/

namespace QuicDispatcherModel

/-- Peer or self socket address, as a (host, port) pair.  Only equality and
the UDP port component matter to the dispatcher. -/
def Addr : Type := Nat × Nat

instance : DecidableEq Addr := by unfold Addr; infer_instance

/-- Connection identifier: an opaque byte string (`QuicConnectionId`). -/
structure ConnectionId where
  bytes : List Nat
deriving DecidableEq

/-- Length in bytes of a connection ID. -/
def ConnectionId.length (c : ConnectionId) : Nat := c.bytes.length

/-- Packet header form (`PacketHeaderFormat`). -/
inductive PacketHeaderFormat
  | googleQuicPacket
  | ietfQuicLongHeaderPacket
  | ietfQuicShortHeaderPacket
deriving DecidableEq

/-- Long header packet type (`QuicLongHeaderType`), only meaningful for IETF
long header packets. -/
inductive QuicLongHeaderType
  | initialPacket
  | zeroRtt
  | handshake
  | retry
  | invalidPacketType
deriving DecidableEq

/-- Parsed QUIC version (`ParsedQuicVersion`): the wire label together with
the predicates of it that the dispatcher consults. -/
structure ParsedQuicVersion where
  label : Nat
  known : Bool
  usesTls : Bool
  allowsVariableLengthConnectionIds : Bool
  hasIetfInvariantHeader : Bool
  hasLengthPrefixedConnectionIds : Bool
deriving DecidableEq

/-- Modelled from the spec: `ParsedQuicVersion::Unsupported()` (the quic
version constructors are not among the sources); an unknown version. -/
def unsupportedVersion : ParsedQuicVersion :=
  ⟨0, false, false, false, false, false⟩

/-- Modelled from the spec: `LegacyVersionForEncapsulation()` is an external
constant (a specific legacy-crypto version used as the outer version of
legacy version encapsulation, §4.I).  Only its identity matters here. -/
def legacyVersionForEncapsulation : ParsedQuicVersion :=
  ⟨43, true, false, false, false, false⟩

/-- QUIC error codes used by the dispatcher, including codes synthesised from
a TLS alert by the fixed table `TlsAlertToQuicErrorCode` (§4.H). -/
inductive QuicErrorCode
  | noError
  | handshakeFailed
  | invalidPacketHeader
  | peerGoingAway
  | fromTlsAlert (alert : Nat)
deriving DecidableEq

/-- Modelled from the spec: `TlsAlertToQuicErrorCode` is a fixed external
table (§4.H); it is abstracted by the injective constructor `fromTlsAlert`. -/
def tlsAlertToQuicErrorCode (alert : Nat) : QuicErrorCode := .fromTlsAlert alert

/-- Modelled from the spec, §4.H: the error detail attached to a connection
close synthesised from a TLS alert; the alert-name suffix produced by
the external table is abstracted away, the detail stays nonempty. -/
def tlsAlertErrorDetail (alert : Nat) : String :=
  "TLS handshake failure (Initial) " ++ toString alert

/-- Time-wait list actions (`QuicTimeWaitListManager::TimeWaitAction`). -/
inductive TimeWaitAction
  | sendStatelessReset
  | sendConnectionClosePackets
  | sendTerminationPackets
  | doNothing
deriving DecidableEq

/-- Termination packets handed to the time-wait list: either a
CONNECTION_CLOSE (with the connection ID whose initial keys encrypt it,
recording `SetInitialObfuscators(original_server_connection_id)`), or a
version negotiation packet carrying a list of versions. -/
inductive OutPacket
  | connectionClose (errorCode : QuicErrorCode) (details : String)
      (initialKeyConnectionId : ConnectionId)
  | versionNegotiation (versions : List ParsedQuicVersion)
deriving DecidableEq

/-- Observable effects of a dispatcher entry point, in program order. -/
inductive Effect
  | deliverToSession (sessionId : Nat) (packet : Nat)
  | factoryCreateSession (serverConnectionId : ConnectionId) (alpn : String)
      (peerAddress : Addr)
  | setOriginalDestinationConnectionId (sessionId : Nat)
      (originalConnectionId : ConnectionId)
  | timeWaitAdd (action : TimeWaitAction) (ietf : Bool)
      (connectionIds : List ConnectionId) (packets : List OutPacket)
  | timeWaitProcessPacket (connectionId : ConnectionId) (packetLength : Nat)
  | sendVersionNegotiationPacket (serverConnectionId clientConnectionId : ConnectionId)
      (ietf lengthPrefixed : Bool)
  | sendPublicReset (peerAddress : Addr)
  | bufferPacketFailure (connectionId : ConnectionId)
  | legacyEncapsulationReentry (packet : Nat)
  | onNewConnectionRejected
deriving DecidableEq

/-- Parsed client hello (`ParsedClientHello`). -/
structure ParsedClientHello where
  sni : String
  uaid : String
  alpns : List String
  retryToken : String
  resumptionAttempted : Bool
  earlyDataAttempted : Bool
  legacyVersionEncapsulationInnerPacket : String
deriving DecidableEq

/-- Parsed public header plus the datagram (`ReceivedPacketInfo`).  The raw
datagram bytes are abstracted by an identity number `packet` plus the
observable `packetLength`. -/
structure ReceivedPacketInfo where
  selfAddress : Addr
  peerAddress : Addr
  packet : Nat
  packetLength : Nat
  form : PacketHeaderFormat
  longPacketType : QuicLongHeaderType
  versionFlag : Bool
  useLengthPrefixFlag : Bool
  version : ParsedQuicVersion
  destinationConnectionId : ConnectionId
  sourceConnectionId : ConnectionId
  retryToken : Option String
deriving DecidableEq

/-- Packet copied into the buffered store
(`QuicBufferedPacketStore::BufferedPacket`). -/
structure BufferedPacket where
  packet : Nat
  packetLength : Nat
  selfAddress : Addr
  peerAddress : Addr
deriving DecidableEq

/-- Modelled from the spec, §4.C (the store, `quic_buffered_packet_store.cc`,
is not among the sources): one `BufferedPacketList` per connection ID with no
session yet.  Per the ordering contract, the CHLO-bearing packet is stored
separately (`chloPacket`) and prepended on delivery; `bufferedPackets` holds
the other packets in arrival order. -/
structure BufferedPacketListModel where
  chloPacket : Option BufferedPacket
  bufferedPackets : List BufferedPacket
  parsedChlo : Option ParsedClientHello
  ietfQuic : Bool
  version : ParsedQuicVersion
deriving DecidableEq

/-- Delivery order of a buffered list: the CHLO-bearing packet first (if
any), then the remaining packets in arrival order (spec §4.C, Ordering). -/
def BufferedPacketListModel.deliveryOrder (l : BufferedPacketListModel) :
    List BufferedPacket :=
  l.chloPacket.toList ++ l.bufferedPackets

/-- Result of `QuicBufferedPacketStore::EnqueuePacket` (spec §4.C).  The
codes `CHLO_ALREADY_DELIVERED` and `DROP` arise from store states that this
model does not reach and are listed for completeness. -/
inductive EnqueuePacketResult
  | success
  | tooManyPackets
  | connectionPoolFull
  | chloAlreadyDelivered
  | drop
deriving DecidableEq

/-- Packet fate produced by the validity checks
(`QuicDispatcher::QuicPacketFate`). -/
inductive QuicPacketFate
  | kFateProcess
  | kFateTimeWait
  | kFateDrop
deriving DecidableEq

/-- Session handle as the dispatcher sees it: an identity plus the session's
negotiated version (consulted by the legacy-encapsulation special case). -/
structure SessionHandle where
  sid : Nat
  version : ParsedQuicVersion
deriving DecidableEq

/-- Association-list find, used for the session map and the buffered store. -/
def assocFind {κ ν : Type} [DecidableEq κ] : List (κ × ν) → κ → Option ν
  | [], _ => none
  | e :: rest, k => if e.1 = k then some e.2 else assocFind rest k

/-- Association-list update of the first entry with the given key. -/
def assocUpdate {κ ν : Type} [DecidableEq κ] : List (κ × ν) → κ → ν → List (κ × ν)
  | [], _, _ => []
  | e :: rest, k, v => if e.1 = k then (k, v) :: rest else e :: assocUpdate rest k v

/-- Association-list erasure of a key (map semantics: the key is gone). -/
def assocErase {κ ν : Type} [DecidableEq κ] : List (κ × ν) → κ → List (κ × ν)
  | [], _ => []
  | e :: rest, k => if e.1 = k then assocErase rest k else e :: assocErase rest k

/-- Minimal INITIAL packet length sent by clients
(`kMinClientInitialPacketLength`, quic_dispatcher.cc line 42). -/
def kMinClientInitialPacketLength : Nat := 1200

/-- `kQuicMinimumInitialConnectionIdLength` (spec §6: 8). -/
def kQuicMinimumInitialConnectionIdLength : Nat := 8

/-- Modelled from the spec: `kMinPacketSizeForVersionNegotiation` is an
external framer constant gating version negotiation replies on packets
"large enough to resist amplification" (§4.G); no claim depends on its
value. -/
def kMinPacketSizeForVersionNegotiation : Nat := 1200

/-- Dispatcher state: the connection-ID map, the buffered store, the
time-wait list membership, the recent-stateless-reset address set, the
counters and the configuration knobs the routed code consults.  The
boolean fields at the end model the runtime flags
(`FLAGS_quic_allow_chlo_buffering`, `crypto_config()->validate_chlo_size()`,
`quic_map_original_connection_ids2`,
`quic_disable_legacy_version_encapsulation`,
`quic_dispatcher_send_connection_close_for_tls_alerts`) and the store and
framer capacity constants, fixed at construction. -/
structure DispatcherState where
  sessionMap : List (ConnectionId × SessionHandle)
  bufferedStore : List (ConnectionId × BufferedPacketListModel)
  chloOrderQueue : List ConnectionId
  timeWaitConnectionIds : List ConnectionId
  recentStatelessResetAddresses : List Addr
  acceptNewConnections : Bool
  allowShortInitialServerConnectionIds : Bool
  expectedServerConnectionIdLength : Nat
  newSessionsAllowedPerEventLoop : Nat
  nextSessionId : Nat
  numSessionsInSessionMap : Nat
  droppedBlockedPortCount : Nat
  clearStatelessResetAddressesAlarmSet : Bool
  supportedVersions : List ParsedQuicVersion
  supportedAlpns : List String
  allowChloBuffering : Bool
  validateChloSize : Bool
  mapOriginalConnectionIds : Bool
  disableLegacyVersionEncapsulation : Bool
  sendConnectionCloseForTlsAlerts : Bool
  maxPacketsPerConnection : Nat
  maxBufferedConnections : Nat
  maxRecentStatelessResetAddresses : Nat
  minStatelessResetPacketLength : Nat
  packetHeaderTypeSize : Nat
deriving DecidableEq

/-- Session map lookup (`reference_counted_session_map_.find`). -/
def lookupSession (st : DispatcherState) (cid : ConnectionId) : Option SessionHandle :=
  assocFind st.sessionMap cid

/-- Store lookup for one connection ID. -/
def lookupStore (st : DispatcherState) (cid : ConnectionId) :
    Option BufferedPacketListModel :=
  assocFind st.bufferedStore cid

/-- `QuicBufferedPacketStore::HasBufferedPackets`. -/
def hasBufferedPackets (st : DispatcherState) (cid : ConnectionId) : Bool :=
  (lookupStore st cid).isSome

/-- `QuicBufferedPacketStore::HasChloForConnection`. -/
def hasChloForConnection (st : DispatcherState) (cid : ConnectionId) : Bool :=
  match lookupStore st cid with
  | some l => l.parsedChlo.isSome
  | none => false

/-- Modelled from the spec, §4.C: `QuicBufferedPacketStore::EnqueuePacket`.
Per-connection and global caps are enforced by failure codes; the
preferential eviction of non-CHLO lists on overflow is not modelled (no
claim depends on it).  A packet carrying a parsed CHLO is stored in the
separate CHLO slot and the connection is appended to the FIFO of
CHLO-complete connections. -/
def enqueuePacket (st : DispatcherState) (cid : ConnectionId) (ietf : Bool)
    (pkt : BufferedPacket) (version : ParsedQuicVersion)
    (parsedChlo : Option ParsedClientHello) :
    EnqueuePacketResult × DispatcherState :=
  match lookupStore st cid with
  | some l =>
    if st.maxPacketsPerConnection ≤ l.bufferedPackets.length + l.chloPacket.toList.length then
      (.tooManyPackets, st)
    else
      match parsedChlo with
      | some chlo =>
        (.success,
         { st with
            bufferedStore := assocUpdate st.bufferedStore cid
              { l with chloPacket := some pkt, parsedChlo := some chlo },
            chloOrderQueue := st.chloOrderQueue ++ [cid] })
      | none =>
        (.success,
         { st with
            bufferedStore := assocUpdate st.bufferedStore cid
              { l with bufferedPackets := l.bufferedPackets ++ [pkt] } })
  | none =>
    if st.maxBufferedConnections ≤ st.bufferedStore.length then
      (.connectionPoolFull, st)
    else
      match parsedChlo with
      | some chlo =>
        (.success,
         { st with
            bufferedStore := st.bufferedStore ++ [(cid, ⟨some pkt, [], some chlo, ietf, version⟩)],
            chloOrderQueue := st.chloOrderQueue ++ [cid] })
      | none =>
        (.success,
         { st with
            bufferedStore := st.bufferedStore ++ [(cid, ⟨none, [pkt], none, ietf, version⟩)] })

/-- Modelled from the spec, §4.C: `DeliverPackets(cid)` removes and returns
the whole list for the connection ID (an empty list when none exists). -/
def deliverPackets (st : DispatcherState) (cid : ConnectionId) :
    BufferedPacketListModel × DispatcherState :=
  match lookupStore st cid with
  | some l =>
    (l, { st with
            bufferedStore := assocErase st.bufferedStore cid,
            chloOrderQueue := st.chloOrderQueue.filter (fun c => !(decide (c = cid))) })
  | none => (⟨none, [], none, false, unsupportedVersion⟩, st)

/-- Modelled from the spec, §4.C: `DeliverPacketsForNextConnection` pops the
next connection whose CHLO is ready, FIFO across connections. -/
def deliverPacketsForNextConnection (st : DispatcherState) :
    Option (ConnectionId × BufferedPacketListModel × DispatcherState) :=
  match st.chloOrderQueue with
  | [] => none
  | cid :: rest =>
    match lookupStore st cid with
    | none => none
    | some l =>
      some (cid, l,
        { st with
            bufferedStore := assocErase st.bufferedStore cid,
            chloOrderQueue := rest.filter (fun c => !(decide (c = cid))) })

/-- `QuicBufferedPacketStore::DiscardPackets(cid)`. -/
def discardPackets (st : DispatcherState) (cid : ConnectionId) : DispatcherState :=
  { st with
      bufferedStore := assocErase st.bufferedStore cid,
      chloOrderQueue := st.chloOrderQueue.filter (fun c => !(decide (c = cid))) }

/-- Add connection IDs to the time-wait list, as observed through
`IsConnectionIdInTimeWait` (the time-wait list manager itself is external,
§4.D). -/
def addToTimeWait (st : DispatcherState) (cids : List ConnectionId) : DispatcherState :=
  { st with timeWaitConnectionIds := st.timeWaitConnectionIds ++ cids }

/-- The table of blocked UDP source ports (quic_dispatcher.cc lines 515-533). -/
def blockedPorts : List Nat :=
  [0, 17, 19, 53, 111, 123, 137, 138, 161, 389, 500, 1900, 3702, 5353, 5355, 11211]

/-- `IsSourceUdpPortBlocked` (quic_dispatcher.cc lines 511-547): early-return
false for ports above the highest blocked port, else a scan of the table. -/
def IsSourceUdpPortBlocked (port : Nat) : Bool :=
  let highestBlockedPort := blockedPorts.getLastD 0
  if highestBlockedPort < port then
    false
  else
    blockedPorts.contains port

/-- Modelled from the spec, §4.J: `QuicUtils::CreateReplacementConnectionId`
is not among the sources; any stable hash of `(orig_cid, target_length)` to a
connection ID of exactly the target length satisfies the contract.  A
64-bit FNV-1a-style fold of the original bytes seeds the output bytes. -/
def createReplacementConnectionId (cid : ConnectionId) (expectedLength : Nat) :
    ConnectionId :=
  let seed : Nat :=
    cid.bytes.foldl (fun h b => ((h ^^^ b) * 16777619) % 2 ^ 64) 14695981039346656037
  ⟨(List.range expectedLength).map (fun i => (seed + i) % 256)⟩

/-- `QuicDispatcher::ReplaceShortServerConnectionId` (lines 490-498). -/
def replaceShortServerConnectionId (_version : ParsedQuicVersion)
    (serverConnectionId : ConnectionId) (expectedServerConnectionIdLength : Nat) :
    ConnectionId :=
  createReplacementConnectionId serverConnectionId expectedServerConnectionIdLength

/-- `QuicDispatcher::ReplaceLongServerConnectionId` (lines 500-508). -/
def replaceLongServerConnectionId (_version : ParsedQuicVersion)
    (serverConnectionId : ConnectionId) (expectedServerConnectionIdLength : Nat) :
    ConnectionId :=
  createReplacementConnectionId serverConnectionId expectedServerConnectionIdLength

/-- `QuicDispatcher::MaybeReplaceServerConnectionId` (lines 451-488), default
path: the `quic_abstract_connection_id_generator` restart-flag branch
delegates to an injected external generator and is not modelled (flag off). -/
def maybeReplaceServerConnectionId (st : DispatcherState)
    (serverConnectionId : ConnectionId) (version : ParsedQuicVersion) :
    Option ConnectionId :=
  if serverConnectionId.length = st.expectedServerConnectionIdLength then
    none
  else if serverConnectionId.length < st.expectedServerConnectionIdLength then
    some (replaceShortServerConnectionId version serverConnectionId
      st.expectedServerConnectionIdLength)
  else
    some (replaceLongServerConnectionId version serverConnectionId
      st.expectedServerConnectionIdLength)

/-- `QuicDispatcher::IsSupportedVersion` (lines 1400-1408): linear membership
in the version manager's supported list. -/
def isSupportedVersion (st : DispatcherState) (version : ParsedQuicVersion) : Bool :=
  st.supportedVersions.contains version

/-- `QuicDispatcher::SelectAlpn` (lines 927-942). -/
def selectAlpn (st : DispatcherState) (alpns : List String) : String :=
  if alpns = [] then
    ""
  else if 1 < alpns.length then
    match alpns.find? (fun a => st.supportedAlpns.contains a) with
    | some a => a
    | none => alpns.headD ""
  else
    alpns.headD ""

/-- `StatelessConnectionTerminator` (lines 149-210): server connection ID,
the original server connection ID whose initial keys the framer's
obfuscators are set from, the version, and the collector's packets. -/
structure StatelessConnectionTerminator where
  serverConnectionId : ConnectionId
  originalServerConnectionId : ConnectionId
  version : ParsedQuicVersion
  collectorPackets : List OutPacket
deriving DecidableEq

/-- Terminator construction (lines 151-166): the collector starts empty and
`SetInitialObfuscators(original_server_connection_id)` keys the framer. -/
def mkStatelessConnectionTerminator (serverConnectionId : ConnectionId)
    (originalServerConnectionId : ConnectionId) (version : ParsedQuicVersion) :
    StatelessConnectionTerminator :=
  ⟨serverConnectionId, originalServerConnectionId, version, []⟩

/-- `StatelessConnectionTerminator::SerializeConnectionClosePacket`
(lines 188-202).  Modelled from the spec for the external
`QuicPacketCreator`: adding the single CONNECTION_CLOSE frame and flushing
serializes exactly one packet into the collector (§4.E, "exactly one packet
is produced per call"), encrypted under the initial keys derived from the
original server connection ID. -/
def StatelessConnectionTerminator.serializeConnectionClosePacket
    (t : StatelessConnectionTerminator) (errorCode : QuicErrorCode)
    (errorDetails : String) : StatelessConnectionTerminator :=
  { t with collectorPackets := t.collectorPackets ++
      [.connectionClose errorCode errorDetails t.originalServerConnectionId] }

/-- `StatelessConnectionTerminator::CloseConnection` (lines 175-185):
serialize the close packet, then add the supplied active connection IDs to
the time-wait list under `SEND_TERMINATION_PACKETS` with the collector's
packets. -/
def StatelessConnectionTerminator.closeConnection
    (t : StatelessConnectionTerminator) (errorCode : QuicErrorCode)
    (errorDetails : String) (ietfQuic : Bool)
    (activeConnectionIds : List ConnectionId) :
    StatelessConnectionTerminator × Effect :=
  let t1 := t.serializeConnectionClosePacket errorCode errorDetails
  (t1, .timeWaitAdd .sendTerminationPackets ietfQuic activeConnectionIds
        t1.collectorPackets)

/-- `QuicDispatcher::StatelesslyTerminateConnection` (lines 1195-1248). -/
def statelesslyTerminateConnection (st : DispatcherState)
    (serverConnectionId : ConnectionId) (format : PacketHeaderFormat)
    (versionFlag : Bool) (_useLengthPrefixFlag : Bool)
    (version : ParsedQuicVersion) (errorCode : QuicErrorCode)
    (errorDetails : String) (action : TimeWaitAction) :
    DispatcherState × List Effect :=
  if format ≠ .ietfQuicLongHeaderPacket ∧ versionFlag = false then
    (addToTimeWait st [serverConnectionId],
     [.timeWaitAdd action (format ≠ .googleQuicPacket) [serverConnectionId] []])
  else if isSupportedVersion st version = true then
    let t := mkStatelessConnectionTerminator serverConnectionId
      serverConnectionId version
    let r := t.closeConnection errorCode errorDetails
      (format ≠ .googleQuicPacket) [serverConnectionId]
    (addToTimeWait st [serverConnectionId], [r.2])
  else
    (addToTimeWait st [serverConnectionId],
     [.timeWaitAdd .sendTerminationPackets (format ≠ .googleQuicPacket)
        [serverConnectionId] [.versionNegotiation []]])

/-- `QuicDispatcher::ClearStatelessResetAddresses` (lines 1059-1061). -/
def clearStatelessResetAddresses (st : DispatcherState) : DispatcherState :=
  { st with recentStatelessResetAddresses := [] }

/-- `QuicDispatcher::MaybeResetPacketsWithNoVersion` (lines 1481-1528). -/
def maybeResetPacketsWithNoVersion (st : DispatcherState)
    (pi : ReceivedPacketInfo) : DispatcherState × List Effect :=
  if pi.peerAddress ∈ st.recentStatelessResetAddresses then
    (st, [])
  else if pi.form ≠ .googleQuicPacket ∧
      pi.packetLength ≤ st.minStatelessResetPacketLength then
    (st, [])
  else if pi.form = .googleQuicPacket ∧
      pi.packetLength < st.packetHeaderTypeSize +
        st.expectedServerConnectionIdLength + 1 + 1 + 12 then
    (st, [])
  else if st.maxRecentStatelessResetAddresses ≤
      st.recentStatelessResetAddresses.length then
    (st, [])
  else
    let st1 :=
      if st.recentStatelessResetAddresses = [] then
        { st with clearStatelessResetAddressesAlarmSet := true }
      else st
    ({ st1 with recentStatelessResetAddresses :=
        st1.recentStatelessResetAddresses ++ [pi.peerAddress] },
     [.sendPublicReset pi.peerAddress])

/-- The `BufferedPacket` copy of a received datagram. -/
def bufferedOf (pi : ReceivedPacketInfo) : BufferedPacket :=
  ⟨pi.packet, pi.packetLength, pi.selfAddress, pi.peerAddress⟩

/-- `QuicDispatcher::BufferEarlyPacket` (lines 1322-1331). -/
def bufferEarlyPacket (st : DispatcherState) (pi : ReceivedPacketInfo) :
    DispatcherState × List Effect :=
  let r := enqueuePacket st pi.destinationConnectionId
    (pi.form ≠ .googleQuicPacket) (bufferedOf pi) pi.version none
  if r.1 ≠ .success then
    (r.2, [.bufferPacketFailure pi.destinationConnectionId])
  else
    (r.2, [])

/-- `QuicDispatcher::DeliverPacketsToSession` (lines 1392-1398): each packet
in order through `ProcessUdpPacket`. -/
def deliverPacketsToSession (packets : List BufferedPacket) (sid : Nat) :
    List Effect :=
  packets.map (fun p => .deliverToSession sid p.packet)

/-- `QuicDispatcher::CreateSessionFromChlo` (lines 1410-1479).  The abstract
session factory `CreateQuicSession` is represented by the `factoryOk`
parameter (true: a fresh session is produced; false: the factory returned
null) together with a `factoryCreateSession` effect recording each
invocation. -/
def createSessionFromChlo (st : DispatcherState)
    (originalConnectionId : ConnectionId) (parsedChlo : ParsedClientHello)
    (version : ParsedQuicVersion) (_selfAddress peerAddress : Addr)
    (factoryOk : Bool) : Option Nat × DispatcherState × List Effect :=
  let replaced := maybeReplaceServerConnectionId st originalConnectionId version
  let serverConnectionId := replaced.getD originalConnectionId
  if (lookupSession st serverConnectionId).isSome = true ∧
      st.mapOriginalConnectionIds = true then
    if replaced.isSome = true then
      let r := statelesslyTerminateConnection st originalConnectionId
        .ietfQuicLongHeaderPacket true version.hasLengthPrefixedConnectionIds
        version .handshakeFailed "Connection ID collision, please retry"
        .sendConnectionClosePackets
      (none, r.1, r.2)
    else
      (none, st, [])
  else
    let alpn := selectAlpn st parsedChlo.alpns
    let createEff : Effect := .factoryCreateSession serverConnectionId alpn peerAddress
    if factoryOk = false then
      (none, st, [createEff])
    else
      let sid := st.nextSessionId
      let st1 := { st with nextSessionId := st.nextSessionId + 1 }
      let effs :=
        if replaced.isSome = true then
          [createEff, .setOriginalDestinationConnectionId sid originalConnectionId]
        else
          [createEff]
      match lookupSession st1 serverConnectionId with
      | some existing => (some existing.sid, st1, effs)
      | none =>
        let st2 := { st1 with
          sessionMap := st1.sessionMap ++ [(serverConnectionId, ⟨sid, version⟩)],
          numSessionsInSessionMap := st1.numSessionsInSessionMap + 1 }
        let st3 :=
          if st2.mapOriginalConnectionIds = true ∧ replaced.isSome = true then
            match lookupSession st2 originalConnectionId with
            | some _ => st2
            | none =>
              { st2 with sessionMap :=
                  st2.sessionMap ++ [(originalConnectionId, ⟨sid, version⟩)] }
          else st2
        (some sid, st3, effs)

/-- `QuicDispatcher::ProcessChlo` (lines 1333-1379).  The counter
`new_sessions_allowed_per_event_loop_` is a `size_t`, so its `<= 0` test is
an equality with zero and its decrement wraps modulo 2^64. -/
def processChlo (st : DispatcherState) (parsedChlo : ParsedClientHello)
    (pi : ReceivedPacketInfo) (factoryOk : Bool) :
    DispatcherState × List Effect :=
  if st.allowChloBuffering = true ∧ st.newSessionsAllowedPerEventLoop = 0 then
    let r := enqueuePacket st pi.destinationConnectionId
      (pi.form ≠ .googleQuicPacket) (bufferedOf pi) pi.version (some parsedChlo)
    if r.1 ≠ .success then
      (r.2, [.bufferPacketFailure pi.destinationConnectionId])
    else
      (r.2, [])
  else
    match createSessionFromChlo st pi.destinationConnectionId parsedChlo
        pi.version pi.selfAddress pi.peerAddress factoryOk with
    | (none, st1, effs) => (st1, effs)
    | (some sid, st1, effs) =>
      let d := deliverPackets st1 pi.destinationConnectionId
      let st2 := { d.2 with newSessionsAllowedPerEventLoop :=
        (d.2.newSessionsAllowedPerEventLoop + (2 ^ 64 - 1)) % 2 ^ 64 }
      (st2, effs ++ .deliverToSession sid pi.packet ::
        deliverPacketsToSession d.1.deliveryOrder sid)

/-- One iteration of the loop of `QuicDispatcher::ProcessBufferedChlos`
(lines 1273-1299); `none` is the early `return` on an empty delivery. -/
def processBufferedChlosIteration (st : DispatcherState) (factoryOk : Bool) :
    Option (DispatcherState × List Effect) :=
  match deliverPacketsForNextConnection st with
  | none => none
  | some (cid, l, st1) =>
    match l.deliveryOrder with
    | [] => none
    | front :: _ =>
      match l.parsedChlo with
      | none => some (st1, [])
      | some chlo =>
        match createSessionFromChlo st1 cid chlo l.version front.selfAddress
            front.peerAddress factoryOk with
        | (none, st2, effs) => some (st2, effs)
        | (some sid, st2, effs) =>
          some (st2, effs ++ deliverPacketsToSession l.deliveryOrder sid)

/-- The loop of `QuicDispatcher::ProcessBufferedChlos`: at most
`new_sessions_allowed_per_event_loop_` iterations, decrementing the counter
after each. -/
def processBufferedChlosLoop : Nat → DispatcherState → Bool →
    DispatcherState × List Effect
  | 0, st, _ => (st, [])
  | n + 1, st, factoryOk =>
    match processBufferedChlosIteration st factoryOk with
    | none => (st, [])
    | some (st1, effs) =>
      let r := processBufferedChlosLoop n
        { st1 with newSessionsAllowedPerEventLoop := n } factoryOk
      (r.1, effs ++ r.2)

/-- `QuicDispatcher::ProcessBufferedChlos` (lines 1270-1300): reset the
counter to `max_connections_to_create`, then loop. -/
def processBufferedChlos (st : DispatcherState)
    (maxConnectionsToCreate : Nat) (factoryOk : Bool) :
    DispatcherState × List Effect :=
  processBufferedChlosLoop maxConnectionsToCreate
    { st with newSessionsAllowedPerEventLoop := maxConnectionsToCreate } factoryOk

/-- Modelled from the spec: `IsConnectionIdLengthValidForVersion` is external
(`QuicUtils`); per §8, destination connection IDs up to 20 bytes are valid
for the versions the dispatcher processes. -/
def isConnectionIdLengthValidForVersion (len : Nat)
    (_version : ParsedQuicVersion) : Bool :=
  len ≤ 20

/-- The session-map-hit branch of `MaybeDispatchPacket` (lines 595-624): the
legacy-version-encapsulation special case attempts extraction and re-entry
(external `ChloExtractor`, abstracted by the oracle `legacyHandled`),
otherwise the packet is delivered to the session. -/
def sessionHitResult (st : DispatcherState) (pi : ReceivedPacketInfo)
    (h : SessionHandle) (legacyHandled : Bool) :
    Bool × DispatcherState × List Effect :=
  if pi.versionFlag = true ∧ pi.version ≠ h.version ∧
      pi.version = legacyVersionForEncapsulation ∧
      st.disableLegacyVersionEncapsulation = false ∧ legacyHandled = true then
    (true, st, [.legacyEncapsulationReentry pi.packet])
  else
    (true, st, [.deliverToSession h.sid pi.packet])

/-- `QuicDispatcher::MaybeDispatchPacket` after the blocked-port check
(lines 558-728).  `OnFailedToDispatchPacket` and
`ShouldCreateSessionForUnknownVersion` are the base-class defaults (false). -/
def maybeDispatchPacketPostPortCheck (st : DispatcherState)
    (pi : ReceivedPacketInfo) (legacyHandled : Bool) :
    Bool × DispatcherState × List Effect :=
  let serverConnectionId := pi.destinationConnectionId
  if pi.versionFlag = true ∧ pi.version.known = true ∧
      serverConnectionId.length < kQuicMinimumInitialConnectionIdLength ∧
      serverConnectionId.length < st.expectedServerConnectionIdLength ∧
      st.allowShortInitialServerConnectionIds = false then
    (true, st, [])
  else if pi.versionFlag = true ∧ pi.version.known = true ∧
      isConnectionIdLengthValidForVersion serverConnectionId.length
        pi.version = false then
    (true, st, [])
  else
    match lookupSession st serverConnectionId with
    | some h => sessionHitResult st pi h legacyHandled
    | none =>
      let replacedHit : Option SessionHandle :=
        if pi.version.known = true ∧ st.mapOriginalConnectionIds = false then
          (maybeReplaceServerConnectionId st serverConnectionId pi.version).bind
            (lookupSession st)
        else none
      match replacedHit with
      | some h2 => (true, st, [.deliverToSession h2.sid pi.packet])
      | none =>
        if hasChloForConnection st serverConnectionId = true then
          let r := bufferEarlyPacket st pi
          (true, r.1, r.2)
        else if serverConnectionId ∈ st.timeWaitConnectionIds then
          (true, st,
           [.timeWaitProcessPacket serverConnectionId pi.packetLength])
        else if st.acceptNewConnections = false ∧ pi.versionFlag = true then
          let r := statelesslyTerminateConnection st serverConnectionId pi.form
            pi.versionFlag pi.useLengthPrefixFlag pi.version .handshakeFailed
            "Stop accepting new connections" .sendStatelessReset
          (true, r.1, r.2 ++
            [.timeWaitProcessPacket serverConnectionId pi.packetLength,
             .onNewConnectionRejected])
        else if pi.versionFlag = true then
          if isSupportedVersion st pi.version = false then
            if st.validateChloSize = false ∨
                kMinPacketSizeForVersionNegotiation ≤ pi.packetLength then
              (true, st,
               [.sendVersionNegotiationPacket serverConnectionId
                  pi.sourceConnectionId (pi.form ≠ .googleQuicPacket)
                  pi.useLengthPrefixFlag])
            else
              (true, st, [])
          else if st.validateChloSize = true ∧
              pi.form = .ietfQuicLongHeaderPacket ∧
              pi.longPacketType = .initialPacket ∧
              pi.packetLength < kMinClientInitialPacketLength then
            (true, st, [])
          else
            (false, st, [])
        else
          (false, st, [])

/-- `QuicDispatcher::MaybeDispatchPacket` (lines 550-729): the blocked-port
check, then the rest of the fast path.  The silent drop bumps the
`quic_dropped_blocked_port` counter and nothing else. -/
def maybeDispatchPacket (st : DispatcherState) (pi : ReceivedPacketInfo)
    (legacyHandled : Bool) : Bool × DispatcherState × List Effect :=
  if IsSourceUdpPortBlocked pi.peerAddress.2 = true then
    (true,
     { st with droppedBlockedPortCount := st.droppedBlockedPortCount + 1 },
     [])
  else
    maybeDispatchPacketPostPortCheck st pi legacyHandled

/-- Modelled from the spec, §4.B: outcome of driving the external
`TlsChloExtractor` on the current packet (possibly together with the
buffered packets of its connection): a full CHLO, an incomplete one, or a
fatal TLS alert. -/
inductive TlsExtractionOutcome
  | fullChlo (alpns : List String) (sni : String)
      (resumptionAttempted earlyDataAttempted : Bool)
  | incomplete
  | alert (code : Nat)
deriving DecidableEq

/-- Modelled from the spec, §4.B: output of the external legacy-crypto
`ChloExtractor` on a single datagram, when it finds a full CHLO. -/
structure LegacyChloExtract where
  alpn : String
  sni : String
  uaid : String
  legacyVersionEncapsulationInnerPacket : String
deriving DecidableEq

/-- Result record of `TryExtractChloOrBufferEarlyPacket`
(`QuicDispatcher::ExtractChloResult`). -/
structure ExtractChloResult where
  parsedChlo : Option ParsedClientHello
  tlsAlert : Option Nat
deriving DecidableEq

/-- `QuicDispatcher::TryExtractChloOrBufferEarlyPacket` (lines 831-925),
with the two external extractors supplied as oracle outcomes. -/
def tryExtractChloOrBufferEarlyPacket (st : DispatcherState)
    (pi : ReceivedPacketInfo) (tlsOutcome : TlsExtractionOutcome)
    (legacyExtract : Option LegacyChloExtract) :
    DispatcherState × List Effect × ExtractChloResult :=
  if pi.version.usesTls = true then
    match tlsOutcome with
    | .fullChlo alpns sni resumptionAttempted earlyDataAttempted =>
      (st, [],
       ⟨some ⟨sni, "", alpns, pi.retryToken.getD "", resumptionAttempted,
              earlyDataAttempted, ""⟩, none⟩)
    | .alert code =>
      if st.sendConnectionCloseForTlsAlerts = true then
        (st, [], ⟨none, some code⟩)
      else
        let r := bufferEarlyPacket st pi
        (r.1, r.2, ⟨none, some code⟩)
    | .incomplete =>
      let r := bufferEarlyPacket st pi
      (r.1, r.2, ⟨none, none⟩)
  else
    if st.allowChloBuffering = true ∧ legacyExtract = none then
      let r := bufferEarlyPacket st pi
      (r.1, r.2, ⟨none, none⟩)
    else if pi.versionFlag = true ∧ pi.version.hasIetfInvariantHeader = false ∧
        st.validateChloSize = true ∧
        pi.packetLength < kMinClientInitialPacketLength then
      (st, [], ⟨none, none⟩)
    else
      let e := legacyExtract.getD ⟨"", "", "", ""⟩
      (st, [],
       ⟨some ⟨e.sni, e.uaid, [e.alpn], "", false, false,
              e.legacyVersionEncapsulationInnerPacket⟩, none⟩)

/-- The `kFateTimeWait` tail of `QuicDispatcher::ProcessHeader`
(lines 802-825): statelessly terminate, hand the triggering packet to the
time-wait list, discard the connection's buffered packets. -/
def fateTimeWaitTail (st : DispatcherState) (effs : List Effect)
    (pi : ReceivedPacketInfo) (errorCode : QuicErrorCode) (detail : String) :
    DispatcherState × List Effect × QuicPacketFate :=
  let cid := pi.destinationConnectionId
  let r := statelesslyTerminateConnection st cid pi.form pi.versionFlag
    pi.useLengthPrefixFlag pi.version errorCode detail .sendStatelessReset
  (discardPackets r.1 cid,
   effs ++ r.2 ++ [.timeWaitProcessPacket cid pi.packetLength],
   .kFateTimeWait)

/-- `QuicDispatcher::ProcessHeader` (lines 731-829) with the base-class
`ValidityChecks` (no-version packets for unknown connection IDs are reset
and dropped, everything else proceeds), the external extractors as oracles,
the virtual `ValidityChecksOnFullChlo` as the oracle `fullChloFate`, and the
legacy-version-encapsulation re-entry abstracted by `legacyHandled`.  The
returned fate is the one the final switch acts on (`kFateProcess` for paths
that returned earlier). -/
def processHeader (st : DispatcherState) (pi : ReceivedPacketInfo)
    (tlsOutcome : TlsExtractionOutcome)
    (legacyExtract : Option LegacyChloExtract)
    (fullChloFate : QuicPacketFate) (legacyHandled : Bool) (factoryOk : Bool) :
    DispatcherState × List Effect × QuicPacketFate :=
  if pi.versionFlag = false then
    let r := maybeResetPacketsWithNoVersion st pi
    (r.1, r.2, .kFateDrop)
  else
    let e := tryExtractChloOrBufferEarlyPacket st pi tlsOutcome legacyExtract
    let st1 := e.1
    let effs1 := e.2.1
    let res := e.2.2
    if st.sendConnectionCloseForTlsAlerts = true ∧ res.tlsAlert.isSome = true then
      let alert := res.tlsAlert.getD 0
      fateTimeWaitTail st1 effs1 pi (tlsAlertToQuicErrorCode alert)
        (tlsAlertErrorDetail alert)
    else
      match res.parsedChlo with
      | none => (st1, effs1, .kFateProcess)
      | some chlo =>
        match fullChloFate with
        | .kFateProcess =>
          if st.disableLegacyVersionEncapsulation = false ∧
              chlo.legacyVersionEncapsulationInnerPacket ≠ "" ∧
              legacyHandled = true then
            (st1, effs1 ++ [.legacyEncapsulationReentry pi.packet],
             .kFateProcess)
          else
            let r := processChlo st1 chlo pi factoryOk
            (r.1, effs1 ++ r.2, .kFateProcess)
        | .kFateTimeWait =>
          fateTimeWaitTail st1 effs1 pi .handshakeFailed "Reject connection"
        | .kFateDrop => (st1, effs1, .kFateDrop)

/-- A clear-alarm-free run of no-version packets through
`MaybeResetPacketsWithNoVersion`: the events between two firings of
`clear_stateless_reset_addresses_alarm_`. -/
def runMaybeResetPackets (st : DispatcherState) :
    List ReceivedPacketInfo → DispatcherState × List Effect
  | [] => (st, [])
  | pi :: rest =>
    let r1 := maybeResetPacketsWithNoVersion st pi
    let r2 := runMaybeResetPackets r1.1 rest
    (r2.1, r1.2 ++ r2.2)

/-- Number of stateless resets sent to one peer address in an effect list. -/
def countResetsTo (a : Addr) (effs : List Effect) : Nat :=
  (effs.filter (fun e => decide (e = .sendPublicReset a))).length

/-! Helper lemmas about the association-list operations. -/

theorem assocFind_assocErase_self {κ ν : Type} [DecidableEq κ]
    (l : List (κ × ν)) (k : κ) : assocFind (assocErase l k) k = none := by
  induction l with
  | nil => rfl
  | cons e rest ih =>
    by_cases h : e.1 = k
    · simpa [assocErase, h] using ih
    · simpa [assocErase, assocFind, h] using ih

theorem assocFind_assocUpdate_self {κ ν : Type} [DecidableEq κ]
    (l : List (κ × ν)) (k : κ) (v w : ν) (h : assocFind l k = some w) :
    assocFind (assocUpdate l k v) k = some v := by
  induction l with
  | nil => simp [assocFind] at h
  | cons e rest ih =>
    by_cases he : e.1 = k
    · simp [assocUpdate, assocFind, he]
    · simp only [assocFind, he, if_false] at h
      simpa [assocUpdate, assocFind, he] using ih h

theorem assocFind_append_self {κ ν : Type} [DecidableEq κ]
    (l : List (κ × ν)) (k : κ) (v : ν) (h : assocFind l k = none) :
    assocFind (l ++ [(k, v)]) k = some v := by
  induction l with
  | nil => simp [assocFind]
  | cons e rest ih =>
    by_cases he : e.1 = k
    · simp [assocFind, he] at h
    · simp only [assocFind, he, if_false] at h
      simpa [assocFind, he] using ih h

/-! Example fixtures used by the concrete witnesses. -/

/-- Example supported version for the fixtures. -/
def v1 : ParsedQuicVersion := ⟨1, true, true, true, true, true⟩

/-- Example connection ID of the expected length (8 bytes). -/
def cid8 : ConnectionId := ⟨[1, 2, 3, 4, 5, 6, 7, 8]⟩

/-- Example short connection ID (4 bytes). -/
def cid4 : ConnectionId := ⟨[9, 9, 9, 9]⟩

/-- Baseline example dispatcher state for the witnesses. -/
def baseState : DispatcherState where
  sessionMap := []
  bufferedStore := []
  chloOrderQueue := []
  timeWaitConnectionIds := []
  recentStatelessResetAddresses := []
  acceptNewConnections := true
  allowShortInitialServerConnectionIds := false
  expectedServerConnectionIdLength := 8
  newSessionsAllowedPerEventLoop := 10
  nextSessionId := 1
  numSessionsInSessionMap := 0
  droppedBlockedPortCount := 0
  clearStatelessResetAddressesAlarmSet := false
  supportedVersions := [v1]
  supportedAlpns := ["h3"]
  allowChloBuffering := true
  validateChloSize := true
  mapOriginalConnectionIds := true
  disableLegacyVersionEncapsulation := true
  sendConnectionCloseForTlsAlerts := true
  maxPacketsPerConnection := 256
  maxBufferedConnections := 1024
  maxRecentStatelessResetAddresses := 1024
  minStatelessResetPacketLength := 30
  packetHeaderTypeSize := 1

/-- Baseline example packet for the witnesses: a 1300-byte IETF INITIAL. -/
def basePi : ReceivedPacketInfo where
  selfAddress := (10, 443)
  peerAddress := (20, 40000)
  packet := 77
  packetLength := 1300
  form := .ietfQuicLongHeaderPacket
  longPacketType := .initialPacket
  versionFlag := true
  useLengthPrefixFlag := true
  version := v1
  destinationConnectionId := cid8
  sourceConnectionId := cid4
  retryToken := none

/-! Claim theorems. -/

/-- Claim C10: `SelectAlpn` returns the empty string on an empty list; on a
list with more than one element it returns the first element present in the
version manager's supported-ALPN list if any element is; in every other case
it returns the first element of the list. -/
theorem c10_select_alpn (st : DispatcherState) (alpns : List String) :
    (alpns = [] → selectAlpn st alpns = "") ∧
    (1 < alpns.length → ∀ a,
      alpns.find? (fun x => st.supportedAlpns.contains x) = some a →
      selectAlpn st alpns = a) ∧
    (1 < alpns.length →
      alpns.find? (fun x => st.supportedAlpns.contains x) = none →
      selectAlpn st alpns = alpns.headD "") ∧
    (alpns.length = 1 → selectAlpn st alpns = alpns.headD "") := by
  refine ⟨?_, ?_, ?_, ?_⟩
  · intro h
    simp [selectAlpn, h]
  · intro hlen a hfind
    have hne : ¬(alpns = []) := by
      intro h
      rw [h] at hlen
      simp at hlen
    unfold selectAlpn
    rw [if_neg hne, if_pos hlen, hfind]
  · intro hlen hfind
    have hne : ¬(alpns = []) := by
      intro h
      rw [h] at hlen
      simp at hlen
    unfold selectAlpn
    rw [if_neg hne, if_pos hlen, hfind]
  · intro hlen
    have hne : ¬(alpns = []) := by
      intro h
      rw [h] at hlen
      simp at hlen
    have hnl : ¬(1 < alpns.length) := by omega
    simp [selectAlpn, hne, hnl]

/-- Witness for C10 at concrete inputs: with supported ALPNs `["h3"]`, the
list `["spdy", "h3"]` selects `"h3"` (first supported element) and the
singleton `["x"]` selects `"x"`. -/
theorem c10_witness :
    selectAlpn baseState ["spdy", "h3"] = "h3" ∧
    selectAlpn baseState ["x"] = "x" := by
  constructor
  · exact (c10_select_alpn baseState ["spdy", "h3"]).2.1 (by decide) "h3" (by decide)
  · exact (c10_select_alpn baseState ["x"]).2.2.2 (by decide)

/-- Length of the spec-modelled replacement connection ID. -/
theorem createReplacementConnectionId_length (c : ConnectionId) (n : Nat) :
    (createReplacementConnectionId c n).length = n := by
  simp [createReplacementConnectionId, ConnectionId.length]

/-- Claim C3: server connection-ID replacement is a pure function; with the
version allowing variable-length connection IDs, a call with a connection ID
whose length differs from the expected length returns a replacement of
exactly the expected length, and a call with a connection ID of the expected
length returns no replacement.  Purity is inherent in the embedding (the
derivation is a function of its arguments only). -/
theorem c3_cid_replacement_deterministic (st : DispatcherState)
    (c : ConnectionId) (v : ParsedQuicVersion)
    (hv : v.allowsVariableLengthConnectionIds = true) :
    maybeReplaceServerConnectionId st c v =
      maybeReplaceServerConnectionId st c v ∧
    (c.length ≠ st.expectedServerConnectionIdLength →
      ∃ r, maybeReplaceServerConnectionId st c v = some r ∧
        r.length = st.expectedServerConnectionIdLength) ∧
    (c.length = st.expectedServerConnectionIdLength →
      maybeReplaceServerConnectionId st c v = none) := by
  refine ⟨rfl, ?_, ?_⟩
  · intro hne
    by_cases hlt : c.length < st.expectedServerConnectionIdLength
    · refine ⟨replaceShortServerConnectionId v c
        st.expectedServerConnectionIdLength, ?_, ?_⟩
      · simp [maybeReplaceServerConnectionId, hne, hlt]
      · exact createReplacementConnectionId_length c _
    · refine ⟨replaceLongServerConnectionId v c
        st.expectedServerConnectionIdLength, ?_, ?_⟩
      · simp [maybeReplaceServerConnectionId, hne, hlt]
      · exact createReplacementConnectionId_length c _
  · intro heq
    simp [maybeReplaceServerConnectionId, heq]

/-- Witness for C3 at concrete inputs: a 4-byte connection ID is replaced by
one of the expected length 8, and an 8-byte one is not replaced. -/
theorem c3_witness :
    (∃ r, maybeReplaceServerConnectionId baseState cid4 v1 = some r ∧
      r.length = baseState.expectedServerConnectionIdLength) ∧
    maybeReplaceServerConnectionId baseState cid8 v1 = none := by
  constructor
  · exact (c3_cid_replacement_deterministic baseState cid4 v1 rfl).2.1 (by decide)
  · exact (c3_cid_replacement_deterministic baseState cid8 v1 rfl).2.2 (by decide)

/-- Claim C9: every `CloseConnection` call on a (freshly constructed)
stateless connection terminator serializes exactly one packet, a
CONNECTION_CLOSE with the given error code and details encrypted under the
initial keys derived from the original server connection ID, and adds the
supplied active connection IDs to the time-wait list under
`SEND_TERMINATION_PACKETS`. -/
theorem c9_terminator_close (serverCid originalCid : ConnectionId)
    (version : ParsedQuicVersion) (errorCode : QuicErrorCode)
    (errorDetails : String) (ietfQuic : Bool)
    (activeConnectionIds : List ConnectionId) :
    ((mkStatelessConnectionTerminator serverCid originalCid
        version).closeConnection errorCode errorDetails ietfQuic
        activeConnectionIds).2 =
      .timeWaitAdd .sendTerminationPackets ietfQuic activeConnectionIds
        [.connectionClose errorCode errorDetails originalCid] ∧
    ((mkStatelessConnectionTerminator serverCid originalCid
        version).closeConnection errorCode errorDetails ietfQuic
        activeConnectionIds).1.collectorPackets =
      [.connectionClose errorCode errorDetails originalCid] := by
  exact ⟨rfl, rfl⟩

/-- Every blocked port is at most the highest entry of the table. -/
theorem mem_blockedPorts_le (p : Nat) (h : p ∈ blockedPorts) : p ≤ 11211 := by
  simp only [blockedPorts, List.mem_cons, List.not_mem_nil, or_false] at h
  rcases h with rfl | rfl | rfl | rfl | rfl | rfl | rfl | rfl | rfl | rfl | rfl
    | rfl | rfl | rfl | rfl | rfl <;> decide

/-- Claim C1: a datagram whose UDP source port is in the blocked set is
silently dropped by `MaybeDispatchPacket`: it is reported handled, produces
no effects (no outbound bytes, no session delivery, no buffering, no
time-wait processing), and changes no dispatcher state besides the
`quic_dropped_blocked_port` counter; a datagram from any other source port
is never dropped by this check (the dispatch continues with the rest of the
fast path unchanged); and the blocked predicate holds exactly on
`{0, 17, 19, 53, 111, 123, 137, 138, 161, 389, 500, 1900, 3702, 5353, 5355,
11211}`. -/
theorem c1_blocked_ports_drop (st : DispatcherState) (pi : ReceivedPacketInfo)
    (legacyHandled : Bool) :
    (IsSourceUdpPortBlocked pi.peerAddress.2 = true →
      maybeDispatchPacket st pi legacyHandled =
        (true,
         { st with droppedBlockedPortCount := st.droppedBlockedPortCount + 1 },
         [])) ∧
    (IsSourceUdpPortBlocked pi.peerAddress.2 = false →
      maybeDispatchPacket st pi legacyHandled =
        maybeDispatchPacketPostPortCheck st pi legacyHandled) ∧
    (∀ p : Nat, IsSourceUdpPortBlocked p = true ↔ p ∈ blockedPorts) := by
  refine ⟨?_, ?_, ?_⟩
  · intro h
    simp [maybeDispatchPacket, h]
  · intro h
    simp [maybeDispatchPacket, h]
  · intro p
    constructor
    · intro h
      unfold IsSourceUdpPortBlocked at h
      simp at h
      exact h.2
    · intro hmem
      have hle : p ≤ 11211 := mem_blockedPorts_le p hmem
      have hlast : blockedPorts.getLastD 0 = 11211 := by decide
      unfold IsSourceUdpPortBlocked
      have hnp : ¬(blockedPorts.getLastD 0 < p) := by omega
      simp only [hnp, if_false]
      simpa using hmem

/-- Witness for C1 at concrete inputs: a packet from source port 53 is
dropped with only the counter bumped, and a packet from source port 40000
falls through to the rest of the fast path. -/
theorem c1_witness :
    maybeDispatchPacket baseState
        { basePi with peerAddress := (20, 53) } false =
      (true, { baseState with droppedBlockedPortCount := 1 }, []) ∧
    maybeDispatchPacket baseState basePi false =
      maybeDispatchPacketPostPortCheck baseState basePi false := by
  constructor
  · exact (c1_blocked_ports_drop baseState
      { basePi with peerAddress := (20, 53) } false).1 (by decide)
  · exact (c1_blocked_ports_drop baseState basePi false).2.1 (by decide)

/-! Lemmas for the stateless-reset rate limit. -/

theorem countResetsTo_append (a : Addr) (l1 l2 : List Effect) :
    countResetsTo a (l1 ++ l2) = countResetsTo a l1 + countResetsTo a l2 := by
  simp [countResetsTo, List.filter_append]

theorem countResetsTo_le_length (a : Addr) (l : List Effect) :
    countResetsTo a l ≤ l.length := by
  exact List.length_filter_le _ l

/-- A `MaybeResetPacketsWithNoVersion` step never removes an address from
the recent-reset set. -/
theorem maybeReset_step_mem (st : DispatcherState) (pi : ReceivedPacketInfo)
    (a : Addr) (h : a ∈ st.recentStatelessResetAddresses) :
    a ∈ (maybeResetPacketsWithNoVersion st pi).1.recentStatelessResetAddresses := by
  have hne : ¬(st.recentStatelessResetAddresses = []) := by
    intro he
    rw [he] at h
    exact (List.not_mem_nil a) h
  unfold maybeResetPacketsWithNoVersion
  split_ifs <;> simp [hne, h, List.mem_append]

/-- With the address already recorded, a step emits no reset to it. -/
theorem maybeReset_step_count_zero (st : DispatcherState)
    (pi : ReceivedPacketInfo) (a : Addr)
    (h : a ∈ st.recentStatelessResetAddresses) :
    countResetsTo a (maybeResetPacketsWithNoVersion st pi).2 = 0 := by
  have hne : ¬(st.recentStatelessResetAddresses = []) := by
    intro he
    rw [he] at h
    exact (List.not_mem_nil a) h
  unfold maybeResetPacketsWithNoVersion
  split_ifs with h1 h2 h3 h4 <;> simp [countResetsTo, hne] <;>
    (intro he; rw [he] at h1; exact h1 h)

/-- A step that emits a reset to an address records that address. -/
theorem maybeReset_step_reset_mem (st : DispatcherState)
    (pi : ReceivedPacketInfo) (a : Addr)
    (h : Effect.sendPublicReset a ∈ (maybeResetPacketsWithNoVersion st pi).2) :
    a ∈ (maybeResetPacketsWithNoVersion st pi).1.recentStatelessResetAddresses := by
  unfold maybeResetPacketsWithNoVersion at h ⊢
  split_ifs at h ⊢ <;> simp_all [List.mem_append]

/-- A single step emits at most one reset. -/
theorem maybeReset_step_count_le_one (st : DispatcherState)
    (pi : ReceivedPacketInfo) (a : Addr) :
    countResetsTo a (maybeResetPacketsWithNoVersion st pi).2 ≤ 1 := by
  unfold maybeResetPacketsWithNoVersion
  split_ifs <;>
    exact le_trans (countResetsTo_le_length a _) (by simp)

/-- With the address already recorded, a whole clear-free run emits no reset
to it. -/
theorem run_count_zero (pis : List ReceivedPacketInfo) (st : DispatcherState)
    (a : Addr) (h : a ∈ st.recentStatelessResetAddresses) :
    countResetsTo a (runMaybeResetPackets st pis).2 = 0 := by
  induction pis generalizing st with
  | nil => simp [runMaybeResetPackets, countResetsTo]
  | cons pi rest ih =>
    simp only [runMaybeResetPackets, countResetsTo_append]
    have h1 := maybeReset_step_count_zero st pi a h
    have h2 := ih _ (maybeReset_step_mem st pi a h)
    omega

/-- Claim C7: within one clear-free window (a run of no-version packets
between two firings of the clear alarm), at most one stateless reset is
emitted per peer address; once the address is recorded in
`recent_stateless_reset_addresses_`, no further reset is emitted to it; and
the clear alarm empties the whole set. -/
theorem c7_reset_rate_limit (st : DispatcherState)
    (pis : List ReceivedPacketInfo) (a : Addr) :
    countResetsTo a (runMaybeResetPackets st pis).2 ≤ 1 ∧
    (a ∈ st.recentStatelessResetAddresses →
      countResetsTo a (runMaybeResetPackets st pis).2 = 0) ∧
    (clearStatelessResetAddresses st).recentStatelessResetAddresses = [] := by
  refine ⟨?_, run_count_zero pis st a, rfl⟩
  induction pis generalizing st with
  | nil => simp [runMaybeResetPackets, countResetsTo]
  | cons pi rest ih =>
    simp only [runMaybeResetPackets, countResetsTo_append]
    by_cases hm : Effect.sendPublicReset a ∈ (maybeResetPacketsWithNoVersion st pi).2
    · have hz := run_count_zero rest _ a (maybeReset_step_reset_mem st pi a hm)
      have hle := maybeReset_step_count_le_one st pi a
      omega
    · have hz : countResetsTo a (maybeResetPacketsWithNoVersion st pi).2 = 0 := by
        rw [countResetsTo, List.length_eq_zero]
        rw [List.filter_eq_nil_iff]
        intro e he
        simp only [decide_eq_true_eq]
        intro heq
        rw [heq] at he
        exact hm he
      have h2 := ih (maybeResetPacketsWithNoVersion st pi).1
      omega

/-- Example no-version short-header packet from peer (5, 5). -/
def resetPi : ReceivedPacketInfo :=
  { basePi with
      versionFlag := false
      form := .ietfQuicShortHeaderPacket
      peerAddress := (5, 5)
      packetLength := 100 }

/-- Witness for C7 at concrete inputs: two no-version packets from one peer
produce at most one reset from a fresh state, and none at all once the
address is recorded. -/
theorem c7_witness :
    countResetsTo (5, 5)
      (runMaybeResetPackets baseState [resetPi, resetPi]).2 ≤ 1 ∧
    countResetsTo (5, 5)
      (runMaybeResetPackets
        { baseState with recentStatelessResetAddresses := [(5, 5)] }
        [resetPi, resetPi]).2 = 0 := by
  constructor
  · exact (c7_reset_rate_limit baseState [resetPi, resetPi] (5, 5)).1
  · exact (c7_reset_rate_limit
      { baseState with recentStatelessResetAddresses := [(5, 5)] }
      [resetPi, resetPi] (5, 5)).2.1 (by decide)

/-! Shape lemmas about stateless termination. -/

theorem statelesslyTerminate_sessionMap (st : DispatcherState)
    (cid : ConnectionId) (fmt : PacketHeaderFormat) (vf ulp : Bool)
    (v : ParsedQuicVersion) (ec : QuicErrorCode) (d : String)
    (act : TimeWaitAction) :
    (statelesslyTerminateConnection st cid fmt vf ulp v ec d act).1.sessionMap =
      st.sessionMap := by
  unfold statelesslyTerminateConnection
  split_ifs <;> rfl

theorem statelesslyTerminate_timeWait (st : DispatcherState)
    (cid : ConnectionId) (fmt : PacketHeaderFormat) (vf ulp : Bool)
    (v : ParsedQuicVersion) (ec : QuicErrorCode) (d : String)
    (act : TimeWaitAction) :
    (statelesslyTerminateConnection st cid fmt vf ulp v ec d
        act).1.timeWaitConnectionIds =
      st.timeWaitConnectionIds ++ [cid] := by
  unfold statelesslyTerminateConnection
  split_ifs <;> rfl

theorem statelesslyTerminate_bufferedStore (st : DispatcherState)
    (cid : ConnectionId) (fmt : PacketHeaderFormat) (vf ulp : Bool)
    (v : ParsedQuicVersion) (ec : QuicErrorCode) (d : String)
    (act : TimeWaitAction) :
    (statelesslyTerminateConnection st cid fmt vf ulp v ec d
        act).1.bufferedStore = st.bufferedStore := by
  unfold statelesslyTerminateConnection
  split_ifs <;> rfl

theorem statelesslyTerminate_effects_shape (st : DispatcherState)
    (cid : ConnectionId) (fmt : PacketHeaderFormat) (vf ulp : Bool)
    (v : ParsedQuicVersion) (ec : QuicErrorCode) (d : String)
    (act : TimeWaitAction) :
    ∃ a i cs ps, (statelesslyTerminateConnection st cid fmt vf ulp v ec d
        act).2 = [.timeWaitAdd a i cs ps] := by
  unfold statelesslyTerminateConnection
  split_ifs <;> exact ⟨_, _, _, _, rfl⟩

theorem statelesslyTerminate_supported_effects (st : DispatcherState)
    (cid : ConnectionId) (ulp : Bool) (v : ParsedQuicVersion)
    (ec : QuicErrorCode) (d : String) (act : TimeWaitAction)
    (hsup : isSupportedVersion st v = true) :
    (statelesslyTerminateConnection st cid .ietfQuicLongHeaderPacket true ulp
        v ec d act).2 =
      [.timeWaitAdd .sendTerminationPackets true [cid]
        [.connectionClose ec d cid]] := by
  unfold statelesslyTerminateConnection
  have h1 : ¬(PacketHeaderFormat.ietfQuicLongHeaderPacket ≠
      PacketHeaderFormat.ietfQuicLongHeaderPacket ∧ true = false) := by
    simp
  rw [if_neg h1, if_pos hsup]
  rfl

/-- Claim C4: on the new-session path, a session-map hit on the (possibly
replaced) server connection ID makes `CreateSessionFromChlo` return no
session, invoke no session factory, and leave the session map untouched;
when the incoming connection ID had been replaced, the original connection
ID is statelessly terminated with error detail "Connection ID collision,
please retry" and enters the time-wait list (the synthesised
CONNECTION_CLOSE shown is for a supported version, the only kind a CHLO can
carry). -/
theorem c4_collision_rejects_newcomer (st : DispatcherState)
    (originalCid : ConnectionId) (chlo : ParsedClientHello)
    (version : ParsedQuicVersion) (selfA peerA : Addr) (factoryOk : Bool)
    (hflag : st.mapOriginalConnectionIds = true)
    (hhit : (lookupSession st
        ((maybeReplaceServerConnectionId st originalCid version).getD
          originalCid)).isSome = true) :
    (createSessionFromChlo st originalCid chlo version selfA peerA
      factoryOk).1 = none ∧
    (createSessionFromChlo st originalCid chlo version selfA peerA
      factoryOk).2.1.sessionMap = st.sessionMap ∧
    (∀ c al p, Effect.factoryCreateSession c al p ∉
      (createSessionFromChlo st originalCid chlo version selfA peerA
        factoryOk).2.2) ∧
    ((maybeReplaceServerConnectionId st originalCid version).isSome = true →
      isSupportedVersion st version = true →
      (createSessionFromChlo st originalCid chlo version selfA peerA
          factoryOk).2.2 =
        [.timeWaitAdd .sendTerminationPackets true [originalCid]
          [.connectionClose .handshakeFailed
            "Connection ID collision, please retry" originalCid]] ∧
      originalCid ∈ (createSessionFromChlo st originalCid chlo version selfA
        peerA factoryOk).2.1.timeWaitConnectionIds) ∧
    ((maybeReplaceServerConnectionId st originalCid version).isSome = false →
      (createSessionFromChlo st originalCid chlo version selfA peerA
        factoryOk).2.2 = []) := by
  rcases hrep : maybeReplaceServerConnectionId st originalCid version with _ | rc
  · rw [hrep] at hhit
    simp only [Option.getD_none] at hhit
    refine ⟨?_, ?_, ?_, ?_, ?_⟩ <;>
      simp [createSessionFromChlo, hrep, hhit, hflag]
  · rw [hrep] at hhit
    simp only [Option.getD_some] at hhit
    have hbody : createSessionFromChlo st originalCid chlo version selfA peerA
        factoryOk =
        (none,
         (statelesslyTerminateConnection st originalCid
            .ietfQuicLongHeaderPacket true
            version.hasLengthPrefixedConnectionIds version .handshakeFailed
            "Connection ID collision, please retry"
            .sendConnectionClosePackets).1,
         (statelesslyTerminateConnection st originalCid
            .ietfQuicLongHeaderPacket true
            version.hasLengthPrefixedConnectionIds version .handshakeFailed
            "Connection ID collision, please retry"
            .sendConnectionClosePackets).2) := by
      simp [createSessionFromChlo, hrep, hhit, hflag]
    refine ⟨?_, ?_, ?_, ?_, ?_⟩
    · rw [hbody]
    · rw [hbody]
      exact statelesslyTerminate_sessionMap st originalCid _ _ _ version _ _ _
    · intro c al p
      rw [hbody]
      rcases statelesslyTerminate_effects_shape st originalCid
        .ietfQuicLongHeaderPacket true version.hasLengthPrefixedConnectionIds
        version .handshakeFailed "Connection ID collision, please retry"
        .sendConnectionClosePackets with ⟨a, i, cs, ps, hsh⟩
      rw [hsh]
      simp
    · intro _ hsup
      rw [hbody]
      constructor
      · exact statelesslyTerminate_supported_effects st originalCid
          version.hasLengthPrefixedConnectionIds version .handshakeFailed
          "Connection ID collision, please retry" .sendConnectionClosePackets
          hsup
      · rw [statelesslyTerminate_timeWait]
        simp
    · intro hnone
      simp at hnone

/-- Collision fixture: the replacement of the short connection ID `cid4`. -/
def cidReplacement4 : ConnectionId := createReplacementConnectionId cid4 8

/-- Collision fixture: a dispatcher state already owning `cidReplacement4`. -/
def collisionState : DispatcherState :=
  { baseState with sessionMap := [(cidReplacement4, ⟨7, v1⟩)] }

/-- Witness for C4 at concrete inputs: a CHLO arriving on `cid4` whose
replacement collides with an existing session is rejected with the collision
CONNECTION_CLOSE and the original connection ID enters time-wait, while the
session map is unchanged. -/
theorem c4_witness :
    (createSessionFromChlo collisionState cid4
        ⟨"", "", ["h3"], "", false, false, ""⟩ v1 (10, 443) (20, 40000)
        true).1 = none ∧
    (createSessionFromChlo collisionState cid4
        ⟨"", "", ["h3"], "", false, false, ""⟩ v1 (10, 443) (20, 40000)
        true).2.1.sessionMap = collisionState.sessionMap ∧
    (createSessionFromChlo collisionState cid4
        ⟨"", "", ["h3"], "", false, false, ""⟩ v1 (10, 443) (20, 40000)
        true).2.2 =
      [.timeWaitAdd .sendTerminationPackets true [cid4]
        [.connectionClose .handshakeFailed
          "Connection ID collision, please retry" cid4]] ∧
    cid4 ∈ (createSessionFromChlo collisionState cid4
        ⟨"", "", ["h3"], "", false, false, ""⟩ v1 (10, 443) (20, 40000)
        true).2.1.timeWaitConnectionIds := by
  have h := c4_collision_rejects_newcomer collisionState cid4
    ⟨"", "", ["h3"], "", false, false, ""⟩ v1 (10, 443) (20, 40000) true
    (by decide) (by decide)
  exact ⟨h.1, h.2.1, (h.2.2.2.1 (by decide) (by decide)).1,
    (h.2.2.2.1 (by decide) (by decide)).2⟩

/-- A successful enqueue that carries a parsed CHLO marks the connection's
list as having a CHLO. -/
theorem enqueue_chlo_marks (st : DispatcherState) (cid : ConnectionId)
    (ietf : Bool) (pkt : BufferedPacket) (version : ParsedQuicVersion)
    (chlo : ParsedClientHello) (st' : DispatcherState)
    (h : enqueuePacket st cid ietf pkt version (some chlo) = (.success, st')) :
    hasChloForConnection st' cid = true := by
  unfold enqueuePacket at h
  rcases hl : lookupStore st cid with _ | l
  · rw [hl] at h
    simp only at h
    split_ifs at h with hc
    · cases h
    · injection h with h1 h2
      subst h2
      unfold hasChloForConnection lookupStore
      simp only
      rw [assocFind_append_self st.bufferedStore cid _ hl]
      rfl
  · rw [hl] at h
    simp only at h
    split_ifs at h with hc
    · cases h
    · injection h with h1 h2
      subst h2
      unfold hasChloForConnection lookupStore
      simp only
      rw [assocFind_assocUpdate_self st.bufferedStore cid _ l hl]
      rfl

/-- Counterexample state for C6: CHLO buffering disabled by the flag,
session quota exhausted. -/
def noBufferState : DispatcherState :=
  { baseState with
      allowChloBuffering := false
      newSessionsAllowedPerEventLoop := 0 }

/-- Example parsed client hello. -/
def chloH3 : ParsedClientHello := ⟨"example.com", "", ["h3"], "", false, false, ""⟩

/-- Counterexample for C6: with `FLAGS_quic_allow_chlo_buffering` false and
`new_sessions_allowed_per_event_loop_ = 0`, `ProcessChlo` invokes the
session factory (a session is created) and enqueues nothing, contradicting
the claim that every CHLO arriving with the quota exhausted is buffered
without session creation. -/
theorem c6_counterexample :
    noBufferState.newSessionsAllowedPerEventLoop = 0 ∧
    Effect.factoryCreateSession cid8 "h3" basePi.peerAddress ∈
      (processChlo noBufferState chloH3 basePi true).2 ∧
    (processChlo noBufferState chloH3 basePi true).1.bufferedStore = [] := by
  decide

/-- Claim C6 as amended: for every CHLO-bearing packet reaching
`ProcessChlo` while `new_sessions_allowed_per_event_loop_ ≤ 0` *and CHLO
buffering is enabled* (`FLAGS_quic_allow_chlo_buffering`, its default), no
session is created during that call (the session factory is never invoked),
and when the buffered store accepts the packet it is enqueued together with
its parsed CHLO, marking the list as having a CHLO, with no other effect. -/
theorem c6_quota_exhausted_buffers (st : DispatcherState)
    (chlo : ParsedClientHello) (pi : ReceivedPacketInfo) (factoryOk : Bool)
    (hflag : st.allowChloBuffering = true)
    (hquota : st.newSessionsAllowedPerEventLoop = 0) :
    (∀ c al p, Effect.factoryCreateSession c al p ∉
      (processChlo st chlo pi factoryOk).2) ∧
    (∀ st', enqueuePacket st pi.destinationConnectionId
        (pi.form ≠ .googleQuicPacket) (bufferedOf pi) pi.version
        (some chlo) = (.success, st') →
      processChlo st chlo pi factoryOk = (st', []) ∧
      hasChloForConnection st' pi.destinationConnectionId = true) := by
  have hcond : st.allowChloBuffering = true ∧
      st.newSessionsAllowedPerEventLoop = 0 := ⟨hflag, hquota⟩
  constructor
  · intro c al p
    unfold processChlo
    rw [if_pos hcond]
    rcases he : enqueuePacket st pi.destinationConnectionId
        (pi.form ≠ .googleQuicPacket) (bufferedOf pi) pi.version
        (some chlo) with ⟨rs, st'⟩
    by_cases hrs : rs = .success
    · subst hrs
      simp [he]
    · simp [he, hrs]
  · intro st' he
    unfold processChlo
    rw [if_pos hcond, he]
    constructor
    · simp
    · exact enqueue_chlo_marks st pi.destinationConnectionId _ _ pi.version
        chlo st' he

/-- Fixture for the C6 witness: baseline state with the quota exhausted. -/
def quotaState : DispatcherState :=
  { baseState with newSessionsAllowedPerEventLoop := 0 }

/-- Fixture for the C6 witness: the state after enqueueing the CHLO packet. -/
def quotaEnqueued : DispatcherState :=
  (enqueuePacket quotaState basePi.destinationConnectionId
    (basePi.form ≠ .googleQuicPacket) (bufferedOf basePi) basePi.version
    (some chloH3)).2

/-- Witness for C6 (amended) at concrete inputs: with buffering allowed and
the quota exhausted, the CHLO packet is enqueued with its CHLO and the
factory is not invoked. -/
theorem c6_witness :
    (Effect.factoryCreateSession cid8 "h3" basePi.peerAddress ∉
      (processChlo quotaState chloH3 basePi true).2) ∧
    processChlo quotaState chloH3 basePi true = (quotaEnqueued, []) ∧
    hasChloForConnection quotaEnqueued basePi.destinationConnectionId = true := by
  have h := c6_quota_exhausted_buffers quotaState chloH3 basePi true rfl rfl
  have h2 := h.2 quotaEnqueued (by decide)
  exact ⟨h.1 cid8 "h3" basePi.peerAddress, h2.1, h2.2⟩

/-- Claim C2: whenever a session is created from a CHLO, the first packet
delivered to the new session through `ProcessUdpPacket` is the CHLO-bearing
datagram, and the other packets buffered for that connection ID follow in
their original arrival order.  First conjunct: the `ProcessChlo` live-packet
path (where the live packet is the CHLO and the buffered list, having no
stored CHLO, is delivered after it in arrival order).  Second conjunct: the
`ProcessBufferedChlos` draining path (one loop iteration; the stored
CHLO-bearing packet is delivered first, then the rest in arrival order). -/
theorem c2_chlo_delivered_first :
    (∀ (st : DispatcherState) (chlo : ParsedClientHello)
        (pi : ReceivedPacketInfo) (factoryOk : Bool) (sid : Nat)
        (st1 : DispatcherState) (effs : List Effect),
      ¬(st.allowChloBuffering = true ∧ st.newSessionsAllowedPerEventLoop = 0) →
      createSessionFromChlo st pi.destinationConnectionId chlo pi.version
        pi.selfAddress pi.peerAddress factoryOk = (some sid, st1, effs) →
      (deliverPackets st1 pi.destinationConnectionId).1.chloPacket = none →
      (processChlo st chlo pi factoryOk).2 =
        effs ++ .deliverToSession sid pi.packet ::
          (deliverPackets st1 pi.destinationConnectionId).1.bufferedPackets.map
            (fun p => .deliverToSession sid p.packet)) ∧
    (∀ (st : DispatcherState) (factoryOk : Bool) (cid : ConnectionId)
        (l : BufferedPacketListModel) (st1 : DispatcherState)
        (chlo : ParsedClientHello) (cp : BufferedPacket) (sid : Nat)
        (st2 : DispatcherState) (effs : List Effect),
      deliverPacketsForNextConnection st = some (cid, l, st1) →
      l.parsedChlo = some chlo →
      l.chloPacket = some cp →
      createSessionFromChlo st1 cid chlo l.version cp.selfAddress
        cp.peerAddress factoryOk = (some sid, st2, effs) →
      processBufferedChlosIteration st factoryOk =
        some (st2, effs ++ .deliverToSession sid cp.packet ::
          l.bufferedPackets.map (fun p => .deliverToSession sid p.packet))) := by
  constructor
  · intro st chlo pi factoryOk sid st1 effs hnq hcreate hnochlo
    unfold processChlo
    rw [if_neg hnq, hcreate]
    simp only [BufferedPacketListModel.deliveryOrder, deliverPacketsToSession,
      hnochlo, Option.toList_none, List.nil_append]
  · intro st factoryOk cid l st1 chlo cp sid st2 effs hnext hchlo hcp hcreate
    have hdo : l.deliveryOrder = cp :: l.bufferedPackets := by
      simp [BufferedPacketListModel.deliveryOrder, hcp]
    unfold processBufferedChlosIteration
    simp only [hnext, hdo, hchlo, hcreate, deliverPacketsToSession,
      List.map_cons]

/-- Fixture for the C2 witness: two early-arrived packets buffered for
`cid8` with no CHLO yet. -/
def earlyList : BufferedPacketListModel :=
  ⟨none, [⟨50, 1250, (10, 443), (20, 40000)⟩, ⟨51, 1251, (10, 443), (20, 40000)⟩],
   none, true, v1⟩

/-- Fixture for the C2 witness: baseline state holding `earlyList`. -/
def earlyState : DispatcherState :=
  { baseState with bufferedStore := [(cid8, earlyList)] }

/-- Fixture for the C2 witness: a CHLO-bearing list queued for draining, the
CHLO packet stored separately from two early packets. -/
def drainList : BufferedPacketListModel :=
  ⟨some ⟨60, 1300, (10, 443), (20, 40000)⟩,
   [⟨61, 1250, (10, 443), (20, 40000)⟩, ⟨62, 1251, (10, 443), (20, 40000)⟩],
   some chloH3, true, v1⟩

/-- Fixture for the C2 witness: baseline state holding `drainList` queued. -/
def drainState : DispatcherState :=
  { baseState with
      bufferedStore := [(cid8, drainList)]
      chloOrderQueue := [cid8] }

/-- Fixture for the C2 witness: the state after draining creates session 1
under `cid8`. -/
def drainSessionState : DispatcherState :=
  { baseState with
      nextSessionId := 2
      sessionMap := [(cid8, ⟨1, v1⟩)]
      numSessionsInSessionMap := 1 }

/-- Witness for C2 at concrete inputs: the live CHLO datagram (packet 77) is
delivered first, then the two buffered packets (50, 51) in arrival order;
and on the draining path the stored CHLO packet (60) is delivered first,
then packets 61 and 62 in arrival order. -/
theorem c2_witness :
    (processChlo earlyState chloH3 basePi true).2 =
      [.factoryCreateSession cid8 "h3" (20, 40000),
       .deliverToSession 1 77, .deliverToSession 1 50,
       .deliverToSession 1 51] ∧
    processBufferedChlosIteration drainState true =
      some (drainSessionState,
            [.factoryCreateSession cid8 "h3" (20, 40000),
             .deliverToSession 1 60, .deliverToSession 1 61,
             .deliverToSession 1 62]) := by
  constructor
  · have h := c2_chlo_delivered_first.1 earlyState chloH3 basePi true 1
      (createSessionFromChlo earlyState basePi.destinationConnectionId chloH3
        basePi.version basePi.selfAddress basePi.peerAddress true).2.1
      (createSessionFromChlo earlyState basePi.destinationConnectionId chloH3
        basePi.version basePi.selfAddress basePi.peerAddress true).2.2
      (by decide) (by decide) (by decide)
    rw [h]
    decide
  · have h := c2_chlo_delivered_first.2 drainState true cid8 drainList
      baseState chloH3 ⟨60, 1300, (10, 443), (20, 40000)⟩ 1 drainSessionState
      [.factoryCreateSession cid8 "h3" (20, 40000)]
      (by decide) (by decide) (by decide) (by decide)
    rw [h]
    decide

/-- Lookup in an empty session map. -/
theorem lookupSession_nil (st : DispatcherState) (h : st.sessionMap = [])
    (c : ConnectionId) : lookupSession st c = none := by
  unfold lookupSession
  rw [h]
  rfl

/-- Claim C8: for a packet with the version flag set, a supported version
and an IETF long header of type INITIAL that reaches the fast path's final
checks (source port not blocked, connection ID of acceptable length, no
matching session, no buffered CHLO, not in time-wait, new connections
accepted, CHLO sizes validated): a length strictly below 1200 bytes makes
`MaybeDispatchPacket` report the packet handled with no effects and no state
change (a silent drop), and a length of at least 1200 bytes is not dropped
by this check (the fast path returns unhandled with no effects). -/
theorem c8_short_initial_dropped (st : DispatcherState)
    (pi : ReceivedPacketInfo) (legacyHandled : Bool)
    (hport : IsSourceUdpPortBlocked pi.peerAddress.2 = false)
    (hvf : pi.versionFlag = true)
    (hknown : pi.version.known = true)
    (hsup : isSupportedVersion st pi.version = true)
    (hform : pi.form = .ietfQuicLongHeaderPacket)
    (htype : pi.longPacketType = .initialPacket)
    (hvalidate : st.validateChloSize = true)
    (hcidlen : kQuicMinimumInitialConnectionIdLength ≤
      pi.destinationConnectionId.length)
    (hcidvalid : isConnectionIdLengthValidForVersion
      pi.destinationConnectionId.length pi.version = true)
    (hmap : st.sessionMap = [])
    (hstore : st.bufferedStore = [])
    (htw : pi.destinationConnectionId ∉ st.timeWaitConnectionIds)
    (haccept : st.acceptNewConnections = true) :
    (pi.packetLength < kMinClientInitialPacketLength →
      maybeDispatchPacket st pi legacyHandled = (true, st, [])) ∧
    (kMinClientInitialPacketLength ≤ pi.packetLength →
      maybeDispatchPacket st pi legacyHandled = (false, st, [])) := by
  have hlt8 : ¬(pi.destinationConnectionId.length <
      kQuicMinimumInitialConnectionIdLength) := by
    omega
  have hsess : ∀ c, lookupSession st c = none := lookupSession_nil st hmap
  have hbind : ∀ o : Option ConnectionId,
      o.bind (lookupSession st) = none := by
    intro o
    cases o <;> simp [hsess]
  have hchlo : hasChloForConnection st pi.destinationConnectionId = false := by
    unfold hasChloForConnection lookupStore
    rw [hstore]
    rfl
  constructor
  · intro hlen
    simp [maybeDispatchPacket, maybeDispatchPacketPostPortCheck, hport, hvf,
      hknown, hlt8, hcidvalid, hsess, hbind, hchlo, htw, haccept, hsup,
      hvalidate, hform, htype, hlen]
  · intro hlen
    have hnlt : ¬(pi.packetLength < kMinClientInitialPacketLength) := by
      omega
    simp [maybeDispatchPacket, maybeDispatchPacketPostPortCheck, hport, hvf,
      hknown, hlt8, hcidvalid, hsess, hbind, hchlo, htw, haccept, hsup,
      hvalidate, hform, htype, hnlt]

/-- Witness for C8 at concrete inputs: a 1199-byte INITIAL is silently
dropped, a 1200-byte one passes this check unhandled. -/
theorem c8_witness :
    maybeDispatchPacket baseState { basePi with packetLength := 1199 } false =
      (true, baseState, []) ∧
    maybeDispatchPacket baseState { basePi with packetLength := 1200 } false =
      (false, baseState, []) := by
  constructor
  · exact (c8_short_initial_dropped baseState
      { basePi with packetLength := 1199 } false (by decide) rfl rfl
      (by decide) rfl rfl rfl (by decide) (by decide) rfl rfl (by decide)
      rfl).1 (by decide)
  · exact (c8_short_initial_dropped baseState
      { basePi with packetLength := 1200 } false (by decide) rfl rfl
      (by decide) rfl rfl rfl (by decide) (by decide) rfl rfl (by decide)
      rfl).2 (by decide)

/-! Preservation lemmas feeding the time-wait fate claim. -/

theorem enqueuePacket_supportedVersions (st : DispatcherState)
    (cid : ConnectionId) (ietf : Bool) (pkt : BufferedPacket)
    (version : ParsedQuicVersion) (pc : Option ParsedClientHello) :
    (enqueuePacket st cid ietf pkt version pc).2.supportedVersions =
      st.supportedVersions := by
  unfold enqueuePacket
  rcases lookupStore st cid with _ | l <;> dsimp only <;> split_ifs <;>
    cases pc <;> rfl

theorem bufferEarlyPacket_fst (st : DispatcherState) (pi : ReceivedPacketInfo) :
    (bufferEarlyPacket st pi).1 =
      (enqueuePacket st pi.destinationConnectionId
        (pi.form ≠ .googleQuicPacket) (bufferedOf pi) pi.version none).2 := by
  unfold bufferEarlyPacket
  dsimp only
  split_ifs <;> rfl

theorem tryExtract_supportedVersions (st : DispatcherState)
    (pi : ReceivedPacketInfo) (t : TlsExtractionOutcome)
    (l : Option LegacyChloExtract) :
    (tryExtractChloOrBufferEarlyPacket st pi t l).1.supportedVersions =
      st.supportedVersions := by
  unfold tryExtractChloOrBufferEarlyPacket
  by_cases h1 : pi.version.usesTls = true
  · rw [if_pos h1]
    cases t with
    | fullChlo a b c d => rfl
    | alert code =>
      dsimp only
      by_cases h2 : st.sendConnectionCloseForTlsAlerts = true
      · rw [if_pos h2]
      · rw [if_neg h2]
        dsimp only
        rw [bufferEarlyPacket_fst]
        exact enqueuePacket_supportedVersions st _ _ _ _ _
    | incomplete =>
      dsimp only
      rw [bufferEarlyPacket_fst]
      exact enqueuePacket_supportedVersions st _ _ _ _ _
  · rw [if_neg h1]
    by_cases h3 : st.allowChloBuffering = true ∧ l = none
    · rw [if_pos h3]
      dsimp only
      rw [bufferEarlyPacket_fst]
      exact enqueuePacket_supportedVersions st _ _ _ _ _
    · rw [if_neg h3]
      by_cases h4 : pi.versionFlag = true ∧
          pi.version.hasIetfInvariantHeader = false ∧
          st.validateChloSize = true ∧
          pi.packetLength < kMinClientInitialPacketLength
      · rw [if_pos h4]
      · rw [if_neg h4]

/-- A supported version is known when every supported version is. -/
theorem isSupportedVersion_known (st : DispatcherState)
    (hallknown : ∀ v ∈ st.supportedVersions, v.known = true)
    (v : ParsedQuicVersion) (h : isSupportedVersion st v = true) :
    v.known = true := by
  unfold isSupportedVersion at h
  have hm : v ∈ st.supportedVersions := by simpa using h
  exact hallknown v hm

/-- Behaviour of the `kFateTimeWait` tail on a packet with the version flag
set: a single time-wait insertion under `SEND_TERMINATION_PACKETS`
(CONNECTION_CLOSE for a supported version, empty version negotiation
otherwise) followed by time-wait processing of the triggering packet, with
the connection's buffered packets discarded. -/
theorem fateTimeWaitTail_spec (st : DispatcherState) (effs : List Effect)
    (pi : ReceivedPacketInfo) (ec : QuicErrorCode) (detail : String)
    (hvf : pi.versionFlag = true) :
    ∃ pkts,
      (fateTimeWaitTail st effs pi ec detail).2.1 =
        effs ++ [.timeWaitAdd .sendTerminationPackets
            (decide (pi.form ≠ .googleQuicPacket))
            [pi.destinationConnectionId] pkts,
          .timeWaitProcessPacket pi.destinationConnectionId pi.packetLength] ∧
      (isSupportedVersion st pi.version = true →
        pkts = [.connectionClose ec detail pi.destinationConnectionId]) ∧
      (isSupportedVersion st pi.version = false →
        pkts = [.versionNegotiation []]) ∧
      hasBufferedPackets (fateTimeWaitTail st effs pi ec detail).1
        pi.destinationConnectionId = false ∧
      pi.destinationConnectionId ∈
        (fateTimeWaitTail st effs pi ec detail).1.timeWaitConnectionIds := by
  have h1 : ¬(pi.form ≠ .ietfQuicLongHeaderPacket ∧ pi.versionFlag = false) := by
    rintro ⟨_, h2⟩
    rw [hvf] at h2
    cases h2
  cases hsupc : isSupportedVersion st pi.version with
  | false =>
    refine ⟨[.versionNegotiation []], ?_, ?_, ?_, ?_, ?_⟩
    · simp [fateTimeWaitTail, statelesslyTerminateConnection, h1, hsupc]
    · intro hc
      simp at hc
    · intro _
      rfl
    · simp [fateTimeWaitTail, statelesslyTerminateConnection, h1, hsupc,
        discardPackets, hasBufferedPackets, lookupStore,
        assocFind_assocErase_self]
    · simp [fateTimeWaitTail, statelesslyTerminateConnection, h1, hsupc,
        discardPackets, addToTimeWait]
  | true =>
    refine ⟨[.connectionClose ec detail pi.destinationConnectionId],
      ?_, ?_, ?_, ?_, ?_⟩
    · simp [fateTimeWaitTail, statelesslyTerminateConnection, h1, hsupc,
        mkStatelessConnectionTerminator,
        StatelessConnectionTerminator.closeConnection,
        StatelessConnectionTerminator.serializeConnectionClosePacket]
    · intro _
      rfl
    · intro hc
      simp at hc
    · simp [fateTimeWaitTail, statelesslyTerminateConnection, h1, hsupc,
        discardPackets, hasBufferedPackets, lookupStore,
        assocFind_assocErase_self]
    · simp [fateTimeWaitTail, statelesslyTerminateConnection, h1, hsupc,
        discardPackets, addToTimeWait]

/-- Claim C5: when `ProcessHeader` resolves a packet's fate to
`kFateTimeWait`, the destination connection ID is added to the time-wait
list under `SEND_TERMINATION_PACKETS` with a synthesised CONNECTION_CLOSE
packet if the packet's version is known and supported, or with a version
negotiation packet carrying an empty version list if the version is
unknown; afterwards the time-wait list processes the triggering packet and
the packets buffered for that connection ID are discarded. -/
theorem c5_time_wait_fate (st : DispatcherState) (pi : ReceivedPacketInfo)
    (t : TlsExtractionOutcome) (l : Option LegacyChloExtract)
    (fullChloFate : QuicPacketFate) (legacyHandled factoryOk : Bool)
    (hallknown : ∀ v ∈ st.supportedVersions, v.known = true)
    (hfate : (processHeader st pi t l fullChloFate legacyHandled
        factoryOk).2.2 = .kFateTimeWait) :
    ∃ effs0 ec detail pkts,
      (processHeader st pi t l fullChloFate legacyHandled factoryOk).2.1 =
        effs0 ++ [.timeWaitAdd .sendTerminationPackets
            (decide (pi.form ≠ .googleQuicPacket))
            [pi.destinationConnectionId] pkts,
          .timeWaitProcessPacket pi.destinationConnectionId pi.packetLength] ∧
      (pi.version.known = true → isSupportedVersion st pi.version = true →
        pkts = [.connectionClose ec detail pi.destinationConnectionId]) ∧
      (pi.version.known = false → pkts = [.versionNegotiation []]) ∧
      hasBufferedPackets (processHeader st pi t l fullChloFate legacyHandled
        factoryOk).1 pi.destinationConnectionId = false ∧
      pi.destinationConnectionId ∈ (processHeader st pi t l fullChloFate
        legacyHandled factoryOk).1.timeWaitConnectionIds := by
  by_cases hvf : pi.versionFlag = false
  · exfalso
    unfold processHeader at hfate
    rw [if_pos hvf] at hfate
    simp at hfate
  · have hvfb : pi.versionFlag = true := by
      cases h : pi.versionFlag
      · exact absurd h hvf
      · rfl
    unfold processHeader at hfate ⊢
    rw [if_neg hvf] at hfate ⊢
    dsimp only at hfate ⊢
    set E := tryExtractChloOrBufferEarlyPacket st pi t l with hE
    have hES : E.1.supportedVersions = st.supportedVersions := by
      rw [hE]
      exact tryExtract_supportedVersions st pi t l
    have hiso : isSupportedVersion E.1 pi.version =
        isSupportedVersion st pi.version := by
      unfold isSupportedVersion
      rw [hES]
    by_cases halert : st.sendConnectionCloseForTlsAlerts = true ∧
        E.2.2.tlsAlert.isSome = true
    · rw [if_pos halert] at hfate ⊢
      obtain ⟨pkts, h1, h2, h3, h4, h5⟩ := fateTimeWaitTail_spec E.1 E.2.1 pi
        (tlsAlertToQuicErrorCode (E.2.2.tlsAlert.getD 0))
        (tlsAlertErrorDetail (E.2.2.tlsAlert.getD 0)) hvfb
      refine ⟨E.2.1, tlsAlertToQuicErrorCode (E.2.2.tlsAlert.getD 0),
        tlsAlertErrorDetail (E.2.2.tlsAlert.getD 0), pkts, h1, ?_, ?_, h4, h5⟩
      · intro _ hs
        exact h2 (by rw [hiso]; exact hs)
      · intro hk
        apply h3
        rw [hiso]
        cases hss : isSupportedVersion st pi.version with
        | false => rfl
        | true =>
          have hkn := isSupportedVersion_known st hallknown pi.version hss
          rw [hkn] at hk
          exact Bool.noConfusion hk
    · rw [if_neg halert] at hfate ⊢
      rcases hpc : E.2.2.parsedChlo with _ | chlo
      · rw [hpc] at hfate
        simp at hfate
      · rw [hpc] at hfate
        dsimp only at hfate ⊢
        cases fullChloFate with
        | kFateProcess =>
          exfalso
          dsimp only at hfate
          split_ifs at hfate
        | kFateDrop =>
          exfalso
          simp at hfate
        | kFateTimeWait =>
          dsimp only
          obtain ⟨pkts, h1, h2, h3, h4, h5⟩ := fateTimeWaitTail_spec E.1 E.2.1
            pi .handshakeFailed "Reject connection" hvfb
          refine ⟨E.2.1, .handshakeFailed, "Reject connection", pkts, h1,
            ?_, ?_, h4, h5⟩
          · intro _ hs
            exact h2 (by rw [hiso]; exact hs)
          · intro hk
            apply h3
            rw [hiso]
            cases hss : isSupportedVersion st pi.version with
            | false => rfl
            | true =>
              have hkn := isSupportedVersion_known st hallknown pi.version hss
              rw [hkn] at hk
              exact Bool.noConfusion hk

/-- Witness for C5 at concrete inputs: a fatal TLS alert (code 80) on an
INITIAL packet resolves the fate to `kFateTimeWait`; the effects end with
the time-wait insertion and the time-wait processing of the packet, and the
store holds nothing for the connection afterwards. -/
theorem c5_witness :
    ∃ effs0 ec detail pkts,
      (processHeader baseState basePi (.alert 80) none .kFateProcess false
          true).2.1 =
        effs0 ++ [.timeWaitAdd .sendTerminationPackets
            (decide (basePi.form ≠ .googleQuicPacket))
            [basePi.destinationConnectionId] pkts,
          .timeWaitProcessPacket basePi.destinationConnectionId
            basePi.packetLength] ∧
      (basePi.version.known = true →
        isSupportedVersion baseState basePi.version = true →
        pkts = [.connectionClose ec detail basePi.destinationConnectionId]) ∧
      (basePi.version.known = false → pkts = [.versionNegotiation []]) ∧
      hasBufferedPackets (processHeader baseState basePi (.alert 80) none
        .kFateProcess false true).1 basePi.destinationConnectionId = false ∧
      basePi.destinationConnectionId ∈ (processHeader baseState basePi
        (.alert 80) none .kFateProcess false
        true).1.timeWaitConnectionIds :=
  c5_time_wait_fate baseState basePi (.alert 80) none .kFateProcess false true
    (by decide) (by decide)

end QuicDispatcherModel
